import Mathlib

/-!
Verification of `features/eolearn/features/thresholding.py`.

The file shallowly embeds the two classes of the module, `Thresholding` and
`Bluring`, as Lean structures together with explicit constructor functions
(`Thresholding.init`, `Bluring.init`) returning `Except PyError _`, mirroring
Python's `raise ValueError` / dynamic `TypeError` semantics.  The OpenCV
primitives (`cv.adaptiveThreshold`, `cv.threshold`, `cv.cvtColor`,
`cv.medianBlur`, `cv.GaussianBlur`, `cv.bilateralFilter`) are external
collaborators and are modelled as abstract function parameters bundled in
`CvPrims` / `CvBPrims`; the numpy mask-and-recolor step (lines 111-112 of the
source) is concrete and modelled elementwise on list-valued images.

Python's `|` on machine integers is two's-complement bitwise or; it is
modelled by `pyOr` below.  Python's chained comparisons (`a < b > c` means
`a < b ∧ b > c`) and its operator precedence (`|` binds tighter than
comparisons) are translated literally, because the source's validation code
depends on them: `x < 0 | x > 255` parses as `x < (0 | x) > 255`.

One further dynamic-semantics fact shapes the embedding: line 9 declares
`class Thresholding():` without the `EOTask` base (`EOTask` is imported but
never used as a base class), so the method resolution order of
`Thresholding` is just `(Thresholding, object)` and the call
`self._parse_features(...)` in the first statement of `__init__` (line 68)
raises `AttributeError` on every construction, before any validation runs.
`Thresholding.init` models this always-taken error path; the dead
validation suite of lines 70-97 is embedded separately as
`Thresholding.initChecks`, and the operation bodies (`_thresholding`,
`execute`) are embedded over arbitrary object states.
-/

/-- Bitwise set difference on `Nat`, written with kernel-accelerated
operations: `natDiff m n` keeps exactly the bits of `m` that are not set
in `n` (same function as `Nat.ldiff`). -/
def natDiff (m n : Nat) : Nat := m ^^^ (m &&& n)

/-- Two's-complement bitwise or on `Int`, the meaning of Python's `x | y`
on integers.  Case layout identical to Mathlib's `Int.lor`, with the
negative cases expressed through `natDiff` so that the kernel can
evaluate it on literals. -/
def pyOr : Int → Int → Int
  | .ofNat m, .ofNat n => .ofNat (m ||| n)
  | .ofNat m, .negSucc n => .negSucc (natDiff n m)
  | .negSucc m, .ofNat n => .negSucc (natDiff m n)
  | .negSucc m, .negSucc n => .negSucc (m &&& n)

theorem natDiff_eq_ldiff (m n : Nat) : natDiff m n = Nat.ldiff m n := by
  apply Nat.eq_of_testBit_eq
  intro i
  simp [natDiff, Nat.testBit_xor, Nat.testBit_and, Nat.testBit_ldiff]
  cases m.testBit i <;> cases n.testBit i <;> rfl

/-- Sanity check: `pyOr` is Mathlib's two's-complement `Int.lor`. -/
theorem pyOr_eq_lor (a b : Int) : pyOr a b = Int.lor a b := by
  cases a <;> cases b <;> simp [pyOr, Int.lor, natDiff_eq_ldiff]

/-- Errors a Python constructor or call can raise in this module. -/
inductive PyError
  | valueError
  | typeError
  | keyError
  | attributeError
deriving DecidableEq

/-- A pixel of a 3-channel image (the recolor step of the source assigns the
triple `(255, 0, 0)` to masked pixels). -/
abbrev Pixel := Int × Int × Int

/-- A (flattened) multi-channel image buffer. -/
abbrev Image := List Pixel

/-- A (flattened) single-channel image, such as the output of
`cv.adaptiveThreshold`. -/
abbrev GrayImage := List Int

/-! OpenCV flag constants, with their numeric values from the OpenCV API. -/

def ADAPTIVE_THRESH_MEAN_C : Nat := 0

def ADAPTIVE_THRESH_GAUSSIAN_C : Nat := 1

def THRESH_BINARY : Nat := 0

def THRESH_BINARY_INV : Nat := 1

def THRESH_TRUNC : Nat := 2

def THRESH_TOZERO : Nat := 3

def THRESH_TOZERO_INV : Nat := 4

def THRESH_OTSU : Nat := 8

def COLOR_BGR2RGB : Nat := 4

/-- The OpenCV primitives used by `Thresholding._thresholding`, taken as
abstract external collaborators (black boxes with the argument lists the
source passes to them). -/
structure CvPrims where
  adaptiveThreshold : Image → Int → Nat → Nat → Int → Int → GrayImage
  threshold : Image → Int → Int → Nat → Int × Image
  cvtColor : Image → Nat → Image

/-- Modelled from the spec: the feature categories form "a small closed set
(e.g., raster-data, mask, scalar)"; `FeatureType.data` is raster data
(`FeatureType.DATA` in the source's framework, `eolearn.core`, which is not
part of the sources under verification). -/
inductive FeatureType
  | data
  | mask
  | scalar
deriving DecidableEq

/-- The feature argument of `Thresholding.__init__`: either
`(FeatureType, name)` or `(FeatureType, name, new_name)`. -/
inductive FeatureInput
  | pair (ft : FeatureType) (name : String)
  | triple (ft : FeatureType) (name newName : String)
deriving DecidableEq

/-- Modelled from the spec: `EOTask._parse_features` (owned by
`eolearn.core`, not part of the sources under verification) is "a
feature-normalization routine" producing normalized
`(category, input-name, output-name)` triples, where the "output name
defaults to `<input-name>_THRESH` when unspecified" (the source passes
`rename_function='{}_THRESH'.format`). -/
def parseFeatures : FeatureInput → List (FeatureType × String × String)
  | .pair ft n => [(ft, n, n ++ "_THRESH")]
  | .triple ft n m => [(ft, n, m)]

def AVAILABLE_METHODS_ADAPTIVE_THRESHOLDING : List String :=
  ["ADAPTIVE_THRESH_MEAN_C", "ADAPTIVE_THRESH_GAUSSIAN_C"]

def AVAILABLE_METHODS_SIMPLE_THRESHOLDING : List String :=
  ["THRESH_BINARY", "THRESH_BINARY_INV", "THRESH_TRUNC", "THRESH_TOZERO",
   "THRESH_TOZERO_INV"]

def AVAILABLE_TRESHOLD_TYPE : List String :=
  ["THRESH_BINARY", "THRESH_BINARY_INV"]

/-- The state of a `Thresholding` object after a successful `__init__`. -/
structure Thresholding where
  feature : List (FeatureType × String × String)
  img : Image
  adaptive_th : String
  thresh_type : String
  simple_th : String
  blockSize : Int
  c : Int
  mask_th : Int
  maxValue : Int
  otsu : Int
  simple_th_value : Int
  simple_th_maxValue : Int
deriving DecidableEq

/-- The validation suite of `Thresholding.__init__` (source lines 70-97),
as it would execute if control reached it.  In the real program it is dead
code: line 68 raises `AttributeError` first on every construction (see
`Thresholding.init`).  The numeric "bound" checks are translated with
Python's real parse: `|` binds tighter than comparisons, and comparisons
chain, so e.g. line 84's `self.mask_th < 0 | self.mask_th > 255` is
`mask_th < (0 | mask_th) ∧ (0 | mask_th) > 255`. -/
def Thresholding.initChecks (feature : FeatureInput) (img : Image)
    (simple_th_value simple_th_maxValue : Int)
    (adaptive_th thresh_type simple_th : String)
    (blockSize c mask_th maxValue otsu : Int) :
    Except PyError Thresholding :=
  if adaptive_th ∉ AVAILABLE_METHODS_ADAPTIVE_THRESHOLDING then
    .error .valueError
  else if thresh_type ∉ AVAILABLE_TRESHOLD_TYPE then
    .error .valueError
  else if simple_th ∉ AVAILABLE_METHODS_SIMPLE_THRESHOLDING then
    .error .valueError
  else if blockSize % 2 ≠ 1 then
    .error .valueError
  else if mask_th < pyOr 0 mask_th ∧ pyOr 0 mask_th > 255 then
    .error .valueError
  else if maxValue > pyOr 255 maxValue ∧ pyOr 255 maxValue < 0 then
    .error .valueError
  else if otsu ≠ pyOr 0 otsu ∧ pyOr 0 otsu ≠ 1 then
    .error .valueError
  else if simple_th_value > pyOr 255 simple_th_value ∧
      pyOr 255 simple_th_value < 0 then
    .error .valueError
  else if simple_th_maxValue > pyOr 255 simple_th_maxValue ∧
      pyOr 255 simple_th_maxValue < 0 then
    .error .valueError
  else
    .ok { feature := parseFeatures feature, img := img,
          adaptive_th := adaptive_th, thresh_type := thresh_type,
          simple_th := simple_th, blockSize := blockSize, c := c,
          mask_th := mask_th, maxValue := maxValue, otsu := otsu,
          simple_th_value := simple_th_value,
          simple_th_maxValue := simple_th_maxValue }

/-- `Thresholding.__init__` (source lines 68-97).  Its first statement,
line 68, is `self.feature = self._parse_features(...)`; but line 9 declares
`class Thresholding():` with no `EOTask` base, so the attribute lookup for
`_parse_features` fails and every construction raises `AttributeError`
there, before any of the validation checks of lines 70-97 run.  The
arguments are kept so that statements about construction can be made at
the same call sites; none of them is ever examined. -/
def Thresholding.init (_feature : FeatureInput) (_img : Image)
    (_simple_th_value _simple_th_maxValue : Int)
    (_adaptive_th _thresh_type _simple_th : String)
    (_blockSize _c _mask_th _maxValue _otsu : Int) :
    Except PyError Thresholding :=
  .error .attributeError

/-- Line 111 of the source: `mask = (th_adaptiv < self.mask_th) * 255`
(numpy boolean array times 255, elementwise). -/
def buildMask (th : GrayImage) (cutoff : Int) : GrayImage :=
  th.map (fun v => (if v < cutoff then 1 else 0) * 255)

/-- Line 112 of the source: `self.img[mask!=0] = (255,0,0)` (in-place
elementwise overwrite of the masked pixels with the sentinel color). -/
def applyMask (img : Image) (mask : GrayImage) : Image :=
  List.zipWith (fun px m => if m ≠ 0 then ((255 : Int), (0 : Int), (0 : Int)) else px)
    img mask

/-- Source lines 100-109: the nested dispatch computing `th_adaptiv` by one
call to `cv.adaptiveThreshold`. -/
def Thresholding.adaptiveOut (cv : CvPrims) (t : Thresholding) : GrayImage :=
  if t.adaptive_th = "ADAPTIVE_THRESH_MEAN_C" then
    if t.thresh_type = "THRESH_BINARY" then
      cv.adaptiveThreshold t.img t.maxValue ADAPTIVE_THRESH_MEAN_C
        THRESH_BINARY t.blockSize t.c
    else
      cv.adaptiveThreshold t.img t.maxValue ADAPTIVE_THRESH_MEAN_C
        THRESH_BINARY_INV t.blockSize t.c
  else
    if t.thresh_type = "THRESH_BINARY" then
      cv.adaptiveThreshold t.img t.maxValue ADAPTIVE_THRESH_GAUSSIAN_C
        THRESH_BINARY t.blockSize t.c
    else
      cv.adaptiveThreshold t.img t.maxValue ADAPTIVE_THRESH_GAUSSIAN_C
        THRESH_BINARY_INV t.blockSize t.c

/-- Which syntactic arm of the simple-threshold `if/elif/else` chain
(source lines 115-141) produced the result: `known f` is the arm calling
`cv.threshold` with flag value `f`, `fallback` is the trailing `else`
of line 140 returning `self.img` unmodified. -/
inductive SimpleBranch
  | known (flag : Nat)
  | fallback
deriving DecidableEq

/-- Source lines 115-141: the simple-threshold dispatch, applied to the
(channel-reordered) current image.  The returned `SimpleBranch` labels
which syntactic arm ran; the image component is exactly what the source
chain computes. -/
def Thresholding.simpleStage (cv : CvPrims) (t : Thresholding) (img : Image) :
    SimpleBranch × Image :=
  if t.simple_th = "THRESH_BINARY" then
    if t.otsu = 0 then
      (.known THRESH_BINARY,
       (cv.threshold img t.simple_th_value t.simple_th_maxValue THRESH_BINARY).2)
    else
      (.known (THRESH_BINARY + THRESH_OTSU),
       (cv.threshold img t.simple_th_value t.simple_th_maxValue
         (THRESH_BINARY + THRESH_OTSU)).2)
  else if t.simple_th = "THRESH_BINARY_INV" then
    if t.otsu = 0 then
      (.known THRESH_BINARY_INV,
       (cv.threshold img t.simple_th_value t.simple_th_maxValue
         THRESH_BINARY_INV).2)
    else
      (.known (THRESH_BINARY_INV + THRESH_OTSU),
       (cv.threshold img t.simple_th_value t.simple_th_maxValue
         (THRESH_BINARY_INV + THRESH_OTSU)).2)
  else if t.simple_th = "THRESH_TOZERO" then
    if t.otsu = 0 then
      (.known THRESH_TOZERO,
       (cv.threshold img t.simple_th_value t.simple_th_maxValue THRESH_TOZERO).2)
    else
      (.known (THRESH_TOZERO + THRESH_OTSU),
       (cv.threshold img t.simple_th_value t.simple_th_maxValue
         (THRESH_TOZERO + THRESH_OTSU)).2)
  else if t.simple_th = "THRESH_TOZERO_INV" then
    if t.otsu = 0 then
      (.known THRESH_TOZERO_INV,
       (cv.threshold img t.simple_th_value t.simple_th_maxValue
         THRESH_TOZERO_INV).2)
    else
      (.known (THRESH_TOZERO_INV + THRESH_OTSU),
       (cv.threshold img t.simple_th_value t.simple_th_maxValue
         (THRESH_TOZERO_INV + THRESH_OTSU)).2)
  else if t.simple_th = "THRESH_TRUNC" then
    if t.otsu = 0 then
      (.known THRESH_TRUNC,
       (cv.threshold img t.simple_th_value t.simple_th_maxValue THRESH_TRUNC).2)
    else
      (.known (THRESH_TRUNC + THRESH_OTSU),
       (cv.threshold img t.simple_th_value t.simple_th_maxValue
         (THRESH_TRUNC + THRESH_OTSU)).2)
  else
    (.fallback, img)

/-- The body of `Thresholding._thresholding` (source lines 99-143).  It
reads `self.img`, mutates it in place at line 112, rebinds it to the
BGR-to-RGB conversion at line 114, and returns the value of the simple
stage; the first component is the object state after the call (only the
`img` field can have changed). -/
def Thresholding.run (cv : CvPrims) (t : Thresholding) : Thresholding × Image :=
  let th_adaptiv := Thresholding.adaptiveOut cv t
  let mask := buildMask th_adaptiv t.mask_th
  let recolored := applyMask t.img mask
  let reordered := cv.cvtColor recolored COLOR_BGR2RGB
  let t2 := { t with img := reordered }
  (t2, (Thresholding.simpleStage cv t2 reordered).2)

/-- Python call semantics for `self._thresholding(...)`: the method is
declared as `def _thresholding(self):` with no further parameters, so a
call with any positional argument raises `TypeError` before the body
runs; a call with no argument runs the body. -/
def Thresholding.thresholdingCall (cv : CvPrims) (t : Thresholding)
    (args : List Image) : Except PyError (Thresholding × Image) :=
  match args with
  | [] => .ok (Thresholding.run cv t)
  | _ :: _ => .error .typeError

/-- An EOPatch, as the spec's patch access protocol describes it: a mapping
from (category, name) to an image buffer. -/
abbrev Patch := List ((FeatureType × String) × Image)

/-- `eopatch[feature_type][feature_name]` (read); missing keys raise. -/
def patchGet : Patch → FeatureType → String → Except PyError Image
  | [], _, _ => .error .keyError
  | (k, v) :: rest, ft, n =>
    if k = (ft, n) then .ok v else patchGet rest ft n

/-- `eopatch[feature_type][new_feature_name] = value` (write, overwriting
any existing entry of the same name). -/
def patchSet : Patch → FeatureType → String → Image → Patch
  | [], ft, n, v => [((ft, n), v)]
  | (k, w) :: rest, ft, n, v =>
    if k = (ft, n) then (k, v) :: rest else (k, w) :: patchSet rest ft n v

/-- The loop of `Thresholding.execute` (source lines 146-147): for each
parsed feature triple, evaluate `eopatch[feature_type][feature_name]`,
call `self._thresholding` with it as a positional argument, and store the
result under the new feature name. -/
def Thresholding.execLoop (cv : CvPrims) :
    Thresholding → List (FeatureType × String × String) → Patch →
    Except PyError Patch
  | _, [], p => .ok p
  | t, (ft, n, nn) :: rest, p =>
    match patchGet p ft n with
    | .error e => .error e
    | .ok img =>
      match Thresholding.thresholdingCall cv t [img] with
      | .error e => .error e
      | .ok (t2, res) => Thresholding.execLoop cv t2 rest (patchSet p ft nn res)

/-- `Thresholding.execute` (source lines 145-149). -/
def Thresholding.execute (cv : CvPrims) (t : Thresholding) (p : Patch) :
    Except PyError Patch :=
  match Thresholding.execLoop cv t t.feature p with
  | .error e => .error e
  | .ok p2 => .ok p2

/-- The Gaussian kernel size argument of `Bluring.__init__`: the documented
form is a pair (Python tuple, default `(5,5)`), but an integer can also be
passed. -/
inductive GK
  | int (n : Int)
  | pair (a b : Int)
deriving DecidableEq

def AVAILABLE_BLURING_METHODS : List String :=
  ["none", "medianBlur", "GaussianBlur", "bilateralFilter"]

/-- The state of a `Bluring` object after a successful `__init__`. -/
structure Bluring where
  img : Image
  blur_method : String
  gKsize : GK
  sigmaX : Int
  sigmaY : Int
  mKsize : Int
  d : Int
  sigmaColor : Int
  sigmaSpace : Int
  borderType : Int
deriving DecidableEq

/-- `Bluring.__init__` (source lines 161-210).  Line 198's condition
`self.gKsize % 2 != 1 | self.gKsize != 0 | self.gKsize < 0` parses as the
chained comparison
`(gKsize % 2) != (1 | gKsize) != (0 | gKsize) < 0`;
its leftmost operand `gKsize % 2` is evaluated first, and `tuple % int`
raises `TypeError` in Python, so every pair-valued `gKsize` fails there.
For an integer `gKsize`, and for line 204's
`self.mKsize % 2 != 1 | self.mKsize <= 1`, the chain is translated
literally with `pyOr`. -/
def Bluring.init (img : Image) (sigmaY borderType : Int) (blur_method : String)
    (gKsize : GK) (sigmaX : Int) (mKsize d sigmaColor sigmaSpace : Int) :
    Except PyError Bluring :=
  if blur_method ∉ AVAILABLE_BLURING_METHODS then
    .error .valueError
  else
    match gKsize with
    | .pair _ _ => .error .typeError
    | .int g =>
      if g % 2 ≠ pyOr 1 g ∧ pyOr 1 g ≠ pyOr 0 g ∧ pyOr 0 g < 0 then
        .error .valueError
      else if mKsize % 2 ≠ pyOr 1 mKsize ∧ pyOr 1 mKsize ≤ 1 then
        .error .valueError
      else
        .ok { img := img, blur_method := blur_method, gKsize := gKsize,
              sigmaX := sigmaX, sigmaY := sigmaY, mKsize := mKsize, d := d,
              sigmaColor := sigmaColor, sigmaSpace := sigmaSpace,
              borderType := borderType }

/-- The OpenCV blur primitives used by `Bluring._blur`, taken as abstract
external collaborators. -/
structure CvBPrims where
  medianBlur : Image → Int → Image
  gaussianBlur : Image → GK → Int → Int → Int → Image
  bilateralFilter : Image → Int → Int → Int → Int → Image

/-- The body of `Bluring._blur` (source lines 212-223): dispatch on
`self.blur_method`; each matching arm stores the blurred image back into
`self.img` and returns it, the trailing `else` returns `self.img`
unchanged.  The first component is the object state after the call. -/
def Bluring.blurRun (cv : CvBPrims) (b : Bluring) : Bluring × Image :=
  if b.blur_method = "bilateralFilter" then
    let i := cv.bilateralFilter b.img b.d b.sigmaColor b.sigmaSpace b.borderType
    ({ b with img := i }, i)
  else if b.blur_method = "medianBlur" then
    let i := cv.medianBlur b.img b.mKsize
    ({ b with img := i }, i)
  else if b.blur_method = "GaussianBlur" then
    let i := cv.gaussianBlur b.img b.gKsize b.sigmaX b.sigmaY b.borderType
    ({ b with img := i }, i)
  else
    (b, b.img)

/-- The adaptive-threshold variant the claims describe: the primitive is
selected by the pair (adaptive method, threshold type). -/
def adaptiveVariant (adaptive_th thresh_type : String) : Nat × Nat :=
  ((if adaptive_th = "ADAPTIVE_THRESH_MEAN_C" then ADAPTIVE_THRESH_MEAN_C
    else ADAPTIVE_THRESH_GAUSSIAN_C),
   (if thresh_type = "THRESH_BINARY" then THRESH_BINARY else THRESH_BINARY_INV))

/-- The simple-threshold variant the claims describe: the primitive is
selected by the pair (simple method, Otsu flag), with the Otsu flag adding
`THRESH_OTSU` to the base flag. -/
def simpleVariant (simple_th : String) (otsu : Int) : Nat :=
  (if simple_th = "THRESH_BINARY" then THRESH_BINARY
   else if simple_th = "THRESH_BINARY_INV" then THRESH_BINARY_INV
   else if simple_th = "THRESH_TOZERO" then THRESH_TOZERO
   else if simple_th = "THRESH_TOZERO_INV" then THRESH_TOZERO_INV
   else THRESH_TRUNC) + (if otsu = 0 then 0 else THRESH_OTSU)

/-- The claims' description of the thresholding operation, assembled from
the selected variants in the documented fixed order: adaptive threshold,
mask-and-recolor, BGR-to-RGB conversion, simple threshold; the returned
image is the simple-threshold result. -/
def thresholdingSpec (cv : CvPrims) (t : Thresholding) : Thresholding × Image :=
  let flags := adaptiveVariant t.adaptive_th t.thresh_type
  let th_adaptiv :=
    cv.adaptiveThreshold t.img t.maxValue flags.1 flags.2 t.blockSize t.c
  let recolored := applyMask t.img (buildMask th_adaptiv t.mask_th)
  let reordered := cv.cvtColor recolored COLOR_BGR2RGB
  ({ t with img := reordered },
   (cv.threshold reordered t.simple_th_value t.simple_th_maxValue
     (simpleVariant t.simple_th t.otsu)).2)

/-- A concrete instance of the OpenCV primitives, used to instantiate the
universally quantified theorems at specific inputs. -/
def testPrims : CvPrims where
  adaptiveThreshold img maxValue method ttype blockSize c :=
    img.map (fun px => px.1 + (method : Int) + ttype + blockSize + c + maxValue)
  threshold img thresh maxValue flag :=
    (thresh, img.map (fun px => (px.1 + thresh + maxValue + flag, px.2.1, px.2.2)))
  cvtColor img _ := img.map (fun px => (px.2.2, px.2.1, px.1))

/-- A concrete instance of the OpenCV blur primitives. -/
def testBPrims : CvBPrims where
  medianBlur img k := img.map (fun px => (px.1 + k, px.2.1, px.2.2))
  gaussianBlur img _ sx sy bt := img.map (fun px => (px.1 + sx + sy + bt, px.2.1, px.2.2))
  bilateralFilter img d sc ss bt := img.map (fun px => (px.1 + d + sc + ss + bt, px.2.1, px.2.2))

theorem pyOr_zero (x : Int) : pyOr 0 x = x := by
  cases x with
  | ofNat n =>
    show Int.ofNat (0 ||| n) = Int.ofNat n
    simp
  | negSucc n =>
    show Int.negSucc (natDiff n 0) = Int.negSucc n
    simp [natDiff]

theorem natDiff_le (m n : Nat) : natDiff m n ≤ m := by
  apply Nat.le_of_testBit
  intro i h
  simp only [natDiff, Nat.testBit_xor, Nat.testBit_and] at h
  revert h
  cases m.testBit i <;> cases n.testBit i <;> simp

theorem le_pyOr_255 (x : Int) : x ≤ pyOr 255 x := by
  cases x with
  | ofNat n =>
    show Int.ofNat n ≤ Int.ofNat (255 ||| n)
    have : n ≤ 255 ||| n := by
      apply Nat.le_of_testBit
      intro i h
      simp [Nat.testBit_or, h]
    exact Int.ofNat_le.mpr this
  | negSucc n =>
    show Int.negSucc n ≤ Int.negSucc (natDiff n 255)
    have h := natDiff_le n 255
    rw [Int.negSucc_eq, Int.negSucc_eq]
    omega

/-- Python's `x < 0 | x > 255` (chained comparison against `0 | x`) can
never be true. -/
theorem chain_low_not (x : Int) : ¬(x < pyOr 0 x ∧ pyOr 0 x > 255) := by
  rw [pyOr_zero]
  rintro ⟨h, _⟩
  exact lt_irrefl x h

/-- Python's `x > 255 | x < 0` (chained comparison against `255 | x`) can
never be true. -/
theorem chain_high_not (x : Int) : ¬(x > pyOr 255 x ∧ pyOr 255 x < 0) := by
  rintro ⟨h, _⟩
  exact absurd (le_pyOr_255 x) (not_le.mpr h)

/-- Python's `otsu != 0 | otsu != 1` (chained comparison against
`0 | otsu`) can never be true. -/
theorem chain_otsu_not (x : Int) : ¬(x ≠ pyOr 0 x ∧ pyOr 0 x ≠ 1) := by
  rw [pyOr_zero]
  rintro ⟨h, _⟩
  exact h rfl

/-- Inversion for a successful run of the (unreachable) validation suite:
the object it would build holds exactly the constructor arguments, and the
checks that can fire have passed. -/
theorem thresholding_initChecks_ok {feature img stv stmv a tt s bs c mt mv o t}
    (h : Thresholding.initChecks feature img stv stmv a tt s bs c mt mv o = .ok t) :
    t = { feature := parseFeatures feature, img := img, adaptive_th := a,
          thresh_type := tt, simple_th := s, blockSize := bs, c := c,
          mask_th := mt, maxValue := mv, otsu := o, simple_th_value := stv,
          simple_th_maxValue := stmv } ∧
    a ∈ AVAILABLE_METHODS_ADAPTIVE_THRESHOLDING ∧
    tt ∈ AVAILABLE_TRESHOLD_TYPE ∧
    s ∈ AVAILABLE_METHODS_SIMPLE_THRESHOLDING ∧
    bs % 2 = 1 := by
  unfold Thresholding.initChecks at h
  iterate 9 (split at h; exact (Except.noConfusion h))
  injection h with h
  subst h
  exact ⟨rfl, by simp_all, by simp_all, by simp_all, by omega⟩

/-- The validation suite succeeds exactly when the three method strings are
in their sets and the block size is odd: the numeric checks can never
fire. -/
theorem Thresholding.initChecks_isOk_iff (feature : FeatureInput) (img : Image)
    (stv stmv : Int) (a tt s : String) (bs c mt mv o : Int) :
    (Thresholding.initChecks feature img stv stmv a tt s bs c mt mv o).isOk = true ↔
      (a ∈ AVAILABLE_METHODS_ADAPTIVE_THRESHOLDING ∧
       tt ∈ AVAILABLE_TRESHOLD_TYPE ∧
       s ∈ AVAILABLE_METHODS_SIMPLE_THRESHOLDING ∧
       bs % 2 = 1) := by
  constructor
  · intro h
    cases hE : Thresholding.initChecks feature img stv stmv a tt s bs c mt mv o with
    | error e => rw [hE] at h; simp [Except.isOk, Except.toBool] at h
    | ok t =>
      obtain ⟨-, h1, h2, h3, h4⟩ := thresholding_initChecks_ok hE
      exact ⟨h1, h2, h3, h4⟩
  · rintro ⟨h1, h2, h3, h4⟩
    unfold Thresholding.initChecks
    rw [if_neg (by simpa using h1), if_neg (by simpa using h2),
        if_neg (by simpa using h3), if_neg (by simpa using h4),
        if_neg (chain_low_not mt), if_neg (chain_high_not mv),
        if_neg (chain_otsu_not o), if_neg (chain_high_not stv),
        if_neg (chain_high_not stmv)]
    rfl

/-- Inversion for a successful `Bluring.__init__`. -/
theorem bluring_init_ok {img sY bT bm gk sX mK d sC sS b}
    (h : Bluring.init img sY bT bm gk sX mK d sC sS = .ok b) :
    b = { img := img, blur_method := bm, gKsize := gk, sigmaX := sX,
          sigmaY := sY, mKsize := mK, d := d, sigmaColor := sC,
          sigmaSpace := sS, borderType := bT } ∧
    bm ∈ AVAILABLE_BLURING_METHODS := by
  cases gk with
  | pair x y =>
    simp only [Bluring.init] at h
    split at h <;> exact (Except.noConfusion h)
  | int g =>
    simp only [Bluring.init] at h
    split at h; exact (Except.noConfusion h)
    split at h; exact (Except.noConfusion h)
    split at h; exact (Except.noConfusion h)
    injection h with h
    subst h
    exact ⟨rfl, by simp_all⟩

/-! Concrete fixtures used to instantiate the theorems. -/

def imgT : Image := [(1, 2, 3), (4, 5, 6)]

def patchT : Patch := [((FeatureType.data, "bands"), imgT)]

/-- The object state the validation suite of lines 70-97 would build for
`Thresholding((FeatureType.DATA, 'bands'), imgT, 127, 255)` with the
source's default method strings and numeric parameters.  No real
construction produces it: line 68 raises `AttributeError` first (see
`Thresholding.init`); it serves as an arbitrary object state at which to
instantiate theorems about the operation bodies. -/
def cfgT : Thresholding :=
  { feature := [(FeatureType.data, "bands", "bands_THRESH")], img := imgT,
    adaptive_th := "ADAPTIVE_THRESH_MEAN_C", thresh_type := "THRESH_BINARY",
    simple_th := "THRESH_BINARY", blockSize := 11, c := 2, mask_th := 10,
    maxValue := 255, otsu := 0, simple_th_value := 127,
    simple_th_maxValue := 255 }

/-- The object a successful `Bluring(imgT, 0, 0, 'none', 5, 0, 5, 9, 75, 75)`
call builds (integer `gKsize`, since the documented pair form always raises). -/
def cfgB : Bluring :=
  { img := imgT, blur_method := "none", gKsize := GK.int 5, sigmaX := 0,
    sigmaY := 0, mKsize := 5, d := 9, sigmaColor := 75, sigmaSpace := 75,
    borderType := 0 }

/-- C1: the claim says `execute` writes the thresholding result under the
default output name `bands_THRESH` and returns the patch.  The code can
never do this, for two independent reasons, both shown here.  First
conjunct: every construction raises `AttributeError` at line 68 (the class
does not inherit `EOTask`, so `self._parse_features` does not resolve), so
`execute` is never reached.  Second conjunct: even on a hypothetical object
state, the `execute` body raises `TypeError` on a patch containing the
configured feature, because line 147 calls
`self._thresholding(eopatch[feature_type][feature_name])` while
`_thresholding` (line 99) is declared with no parameter besides `self`.
The third conjunct shows the patch does contain the configured feature,
and the fourth that the spec-modelled feature normalization indeed yields
the documented default output name `bands_THRESH`. -/
theorem c1_execute_raises_typeerror :
    Thresholding.init (FeatureInput.pair FeatureType.data "bands") imgT
        127 255 "ADAPTIVE_THRESH_MEAN_C" "THRESH_BINARY" "THRESH_BINARY"
        11 2 10 255 0 = .error .attributeError ∧
    Thresholding.execute testPrims cfgT patchT = .error .typeError ∧
    patchGet patchT FeatureType.data "bands" = .ok imgT ∧
    parseFeatures (FeatureInput.pair FeatureType.data "bands") =
      [(FeatureType.data, "bands", "bands_THRESH")] :=
  ⟨rfl, rfl, rfl, rfl⟩

/-- C2: the claim says construction raises an error for `mask_th = 300`,
`maxValue = -1`, `simple_th_value = 256` and any `otsu` outside `{0, 1}`.
It does — but not through the documented bound checks: every construction,
whatever its arguments, raises `AttributeError` at line 68 before any
validation (first conjunct, which also covers every out-of-bounds Otsu
value), and in particular the four constructions the claim names fail
(remaining conjuncts).  Had line 68 not raised, the numeric checks of
lines 84-97 could still never fire: they parse as chained comparisons
against `0 | x` or `255 | x`, proved unsatisfiable in `chain_low_not`,
`chain_high_not` and `chain_otsu_not` and reflected in
`Thresholding.initChecks_isOk_iff`. -/
theorem c2_construction_fails_for_invalid_bounds :
    (∀ (feature : FeatureInput) (img : Image) (stv stmv : Int)
       (a tt s : String) (bs c mt mv o : Int),
       (Thresholding.init feature img stv stmv a tt s bs c mt mv o).isOk =
         false) ∧
    Thresholding.init (FeatureInput.pair FeatureType.data "bands") imgT
        127 255 "ADAPTIVE_THRESH_MEAN_C" "THRESH_BINARY" "THRESH_BINARY"
        11 2 300 255 0 = .error .attributeError ∧
    Thresholding.init (FeatureInput.pair FeatureType.data "bands") imgT
        127 255 "ADAPTIVE_THRESH_MEAN_C" "THRESH_BINARY" "THRESH_BINARY"
        11 2 10 (-1) 0 = .error .attributeError ∧
    Thresholding.init (FeatureInput.pair FeatureType.data "bands") imgT
        256 255 "ADAPTIVE_THRESH_MEAN_C" "THRESH_BINARY" "THRESH_BINARY"
        11 2 10 255 0 = .error .attributeError ∧
    Thresholding.init (FeatureInput.pair FeatureType.data "bands") imgT
        127 255 "ADAPTIVE_THRESH_MEAN_C" "THRESH_BINARY" "THRESH_BINARY"
        11 2 10 255 2 = .error .attributeError :=
  ⟨fun _ _ _ _ _ _ _ _ _ _ _ _ => rfl, rfl, rfl, rfl, rfl⟩

/-- C3: the claim describes working validation and says construction with
valid parameters succeeds.  On the code: a documented-valid call (method
`none`, the default pair kernel size `(5,5)`) raises `TypeError` at
`gKsize % 2` (first conjunct); the method-enum check does work (second
conjunct); and the documented median constraint (odd, greater than 1) is
not enforced, `mKsize = 4` being accepted (third conjunct). -/
theorem c3_bluring_validation_broken :
    Bluring.init imgT 0 0 "none" (GK.pair 5 5) 0 5 9 75 75 =
      .error .typeError ∧
    Bluring.init imgT 0 0 "foo" (GK.pair 5 5) 0 5 9 75 75 =
      .error .valueError ∧
    (Bluring.init imgT 0 0 "medianBlur" (GK.int 5) 0 4 9 75 75).isOk = true :=
  ⟨rfl, rfl, rfl⟩

/-- C4: for every blur method chosen from the 4-element enum and every
pair-valued `gKsize`, `Bluring.__init__` raises `TypeError` when it
evaluates `gKsize % 2` (Python's `tuple % int`), not the documented
configuration `ValueError`; and (second conjunct) with a pair-valued
`gKsize` no `Bluring` instance can be constructed whatever the method
string. -/
theorem c4_pair_gksize_typeerror (bm bm2 : String)
    (hbm : bm ∈ AVAILABLE_BLURING_METHODS) (img : Image)
    (sY bT x y sX mK d sC sS : Int) :
    Bluring.init img sY bT bm (GK.pair x y) sX mK d sC sS =
      .error .typeError ∧
    (Bluring.init img sY bT bm2 (GK.pair x y) sX mK d sC sS).isOk = false := by
  constructor
  · unfold Bluring.init
    rw [if_neg (by simp [hbm])]
  · unfold Bluring.init
    split
    · rfl
    · rfl

/-- C4 witness: instantiated at the default pair `(5,5)` and method
`none`. -/
theorem c4_witness :
    ("none" ∈ AVAILABLE_BLURING_METHODS) ∧
    (Bluring.init imgT 0 0 "none" (GK.pair 5 5) 0 5 9 75 75 =
       .error .typeError ∧
     (Bluring.init imgT 0 0 "foo" (GK.pair 5 5) 0 5 9 75 75).isOk = false) :=
  ⟨by decide, c4_pair_gksize_typeerror "none" "foo" (by decide) imgT
    0 0 5 5 0 5 9 75 75⟩

/-- C5: the claim speaks of validly constructed configs, but no real
construction succeeds: the first conjunct shows the claimed construction
raises `AttributeError` at line 68 (missing `EOTask` base), so the set the
claim quantifies over is empty.  The operation body itself does behave as
claimed: for every object state that the (unreachable) validation suite of
lines 70-97 accepts, `_thresholding` is exactly the documented four-stage
pipeline — the (adaptive method × threshold type) selected adaptive
variant, the mask-and-recolor step, the BGR-to-RGB conversion, then the
(simple method × Otsu flag) selected simple variant, whose result is
returned (second conjunct) — and the simple dispatch runs the
`cv.threshold` arm with exactly the selected flag (third conjunct). -/
theorem c5_run_is_pipeline {feature img stv stmv a tt s bs c mt mv o t}
    (cv : CvPrims) (img2 : Image)
    (h : Thresholding.initChecks feature img stv stmv a tt s bs c mt mv o = .ok t) :
    Thresholding.init feature img stv stmv a tt s bs c mt mv o =
      .error .attributeError ∧
    Thresholding.run cv t = thresholdingSpec cv t ∧
    (Thresholding.simpleStage cv t img2).1 =
      SimpleBranch.known (simpleVariant t.simple_th t.otsu) := by
  obtain ⟨ht, ha, htt, hs, -⟩ := thresholding_initChecks_ok h
  subst ht
  refine ⟨rfl, ?_⟩
  simp only [AVAILABLE_METHODS_ADAPTIVE_THRESHOLDING, AVAILABLE_TRESHOLD_TYPE,
    AVAILABLE_METHODS_SIMPLE_THRESHOLDING, List.mem_cons,
    List.not_mem_nil, or_false] at ha htt hs
  rcases ha with ha | ha <;> rcases htt with htt | htt <;>
    rcases hs with hs | hs | hs | hs | hs <;>
      subst ha <;> subst htt <;> subst hs <;>
        by_cases ho : o = (0 : Int) <;>
          simp [Thresholding.run, thresholdingSpec, Thresholding.adaptiveOut,
            Thresholding.simpleStage, adaptiveVariant, simpleVariant, ho,
            THRESH_BINARY, THRESH_BINARY_INV, THRESH_TRUNC, THRESH_TOZERO,
            THRESH_TOZERO_INV, THRESH_OTSU]

/-- C5 witness: the pipeline equation instantiated at a concrete object
state accepted by the validation suite (no claim of a successful real
construction is made: the first component of the applied theorem states
that the same argument list raises `AttributeError` in `__init__`). -/
theorem c5_witness :
    Thresholding.initChecks (FeatureInput.pair FeatureType.data "bands") imgT
        127 255 "ADAPTIVE_THRESH_MEAN_C" "THRESH_BINARY" "THRESH_BINARY"
        11 2 10 255 0 = .ok cfgT ∧
    (Thresholding.init (FeatureInput.pair FeatureType.data "bands") imgT
        127 255 "ADAPTIVE_THRESH_MEAN_C" "THRESH_BINARY" "THRESH_BINARY"
        11 2 10 255 0 = .error .attributeError ∧
     Thresholding.run testPrims cfgT = thresholdingSpec testPrims cfgT ∧
     (Thresholding.simpleStage testPrims cfgT imgT).1 =
       SimpleBranch.known (simpleVariant cfgT.simple_th cfgT.otsu)) := by
  have h : Thresholding.initChecks (FeatureInput.pair FeatureType.data "bands")
      imgT 127 255 "ADAPTIVE_THRESH_MEAN_C" "THRESH_BINARY" "THRESH_BINARY"
      11 2 10 255 0 = .ok cfgT := rfl
  exact ⟨h, c5_run_is_pipeline testPrims imgT h⟩

/-- Element characterization of the in-place recolor of line 112. -/
theorem applyMask_getElem (img : Image) (mask : GrayImage) (i : Nat)
    (px : Pixel) (m : Int) (h1 : img[i]? = some px) (h2 : mask[i]? = some m) :
    (applyMask img mask)[i]? =
      some (if m ≠ 0 then ((255 : Int), (0 : Int), (0 : Int)) else px) := by
  induction img generalizing mask i with
  | nil => simp at h1
  | cons p ps ih =>
    cases mask with
    | nil => simp at h2
    | cons q qs =>
      cases i with
      | zero =>
        simp only [List.getElem?_cons_zero, Option.some.injEq] at h1 h2
        subst h1
        subst h2
        simp [applyMask]
      | succ n =>
        simp only [List.getElem?_cons_succ] at h1 h2
        simpa [applyMask] using ih qs n h1 h2

/-- C6: in the mask-and-recolor step, a pixel whose adaptive-threshold
output is strictly below the mask cutoff is overwritten with the sentinel
color `(255,0,0)`, and a pixel at or above the cutoff keeps its original
value (first conjunct, elementwise on any image); and this recoloring is
applied to the original image before the channel reordering: the image
stored after `_thresholding` is the BGR-to-RGB conversion applied to the
recolored original (second conjunct). -/
theorem c6_mask_recolor (img : Image) (th : GrayImage) (cutoff : Int)
    (i : Nat) (px : Pixel) (v : Int) (cv : CvPrims) (t : Thresholding)
    (h1 : img[i]? = some px) (h2 : th[i]? = some v) :
    (applyMask img (buildMask th cutoff))[i]? =
      some (if v < cutoff then ((255 : Int), (0 : Int), (0 : Int)) else px) ∧
    (Thresholding.run cv t).1.img =
      cv.cvtColor
        (applyMask t.img (buildMask (Thresholding.adaptiveOut cv t) t.mask_th))
        COLOR_BGR2RGB := by
  constructor
  · have hm : (buildMask th cutoff)[i]? =
        some ((if v < cutoff then 1 else 0) * 255) := by
      simp [buildMask, h2]
    rw [applyMask_getElem img (buildMask th cutoff) i px _ h1 hm]
    by_cases hv : v < cutoff <;> simp [hv]
  · rfl

/-- C6 witness: a two-pixel image with one adaptive output below the
cutoff and one above it. -/
theorem c6_witness :
    (imgT[0]? = some ((1 : Int), (2 : Int), (3 : Int))) ∧
    (([5, 20] : GrayImage)[0]? = some (5 : Int)) ∧
    ((applyMask imgT (buildMask [5, 20] 10))[0]? =
       some (if (5 : Int) < 10 then ((255 : Int), (0 : Int), (0 : Int))
             else ((1 : Int), (2 : Int), (3 : Int))) ∧
     (Thresholding.run testPrims cfgT).1.img =
       testPrims.cvtColor
         (applyMask cfgT.img
           (buildMask (Thresholding.adaptiveOut testPrims cfgT) cfgT.mask_th))
         COLOR_BGR2RGB) := by
  have h1 : imgT[0]? = some ((1 : Int), (2 : Int), (3 : Int)) := rfl
  have h2 : (([5, 20] : GrayImage))[0]? = some (5 : Int) := rfl
  exact ⟨h1, h2, c6_mask_recolor imgT [5, 20] 10 0 (1, 2, 3) 5 testPrims cfgT h1 h2⟩

/-- C7 counterexample: the claim's "raises if and only if one of the
enumerated-string and parity checks fails" is false of the program at a
fully-valid argument list — both method strings and the simple method are
in their sets and the block size 11 is odd, yet construction raises
(`AttributeError` at line 68, before any validation).  The iff instance at
this input is therefore false. -/
theorem c7_counterexample :
    ¬(((Thresholding.init (FeatureInput.pair FeatureType.data "bands") imgT
          127 255 "ADAPTIVE_THRESH_MEAN_C" "THRESH_BINARY" "THRESH_BINARY"
          11 2 10 255 0).isOk = false) ↔
      ("ADAPTIVE_THRESH_MEAN_C" ∉ AVAILABLE_METHODS_ADAPTIVE_THRESHOLDING ∨
       "THRESH_BINARY" ∉ AVAILABLE_TRESHOLD_TYPE ∨
       "THRESH_BINARY" ∉ AVAILABLE_METHODS_SIMPLE_THRESHOLDING ∨
       (11 : Int) % 2 = 0)) := by
  intro hiff
  have := hiff.mp rfl
  revert this
  decide

/-- C7 as amended: every `Thresholding` construction raises eagerly, with
`AttributeError` at the `_parse_features` call of line 68 (the class has no
`EOTask` base), before any validation runs (first conjunct).  The
validation suite of lines 70-97, had it been reached, would raise exactly
when one of the enumerated-string or parity checks fails: adaptive method
outside its 2-element set, threshold type outside its 2-element set,
simple method outside its 5-element set, or even block size — the numeric
"bound" checks can never fire (second conjunct).  A proper call of the
operation method performs no validation and cannot raise: it always
returns the result of the body (third conjunct). -/
theorem c7_error_iff_string_parity (feature : FeatureInput) (img : Image)
    (stv stmv : Int) (a tt s : String) (bs c mt mv o : Int)
    (cv : CvPrims) (t0 : Thresholding) :
    (Thresholding.init feature img stv stmv a tt s bs c mt mv o =
      .error .attributeError) ∧
    ((Thresholding.initChecks feature img stv stmv a tt s bs c mt mv o).isOk =
        false ↔
      (a ∉ AVAILABLE_METHODS_ADAPTIVE_THRESHOLDING ∨
       tt ∉ AVAILABLE_TRESHOLD_TYPE ∨
       s ∉ AVAILABLE_METHODS_SIMPLE_THRESHOLDING ∨
       bs % 2 = 0)) ∧
    Thresholding.thresholdingCall cv t0 [] = .ok (Thresholding.run cv t0) := by
  have hiff := Thresholding.initChecks_isOk_iff feature img stv stmv a tt s bs c mt mv o
  refine ⟨rfl, ?_, rfl⟩
  constructor
  · intro hf
    by_contra hcon
    push_neg at hcon
    have : (Thresholding.initChecks feature img stv stmv a tt s bs c mt mv o).isOk
        = true :=
      hiff.mpr ⟨hcon.1, hcon.2.1, hcon.2.2.1, by omega⟩
    rw [this] at hf
    cases hf
  · intro hd
    rw [Bool.eq_false_iff]
    intro htrue
    obtain ⟨h1, h2, h3, h4⟩ := hiff.mp htrue
    rcases hd with hd | hd | hd | hd
    · exact hd h1
    · exact hd h2
    · exact hd h3
    · omega

/-- `Bluring._blur` only ever changes the `img` field of the object: the
state after the call is the original object with `img` replaced by the
returned image. -/
theorem Bluring.blurRun_state (cvb : CvBPrims) (b : Bluring) :
    (Bluring.blurRun cvb b).1 = { b with img := (Bluring.blurRun cvb b).2 } := by
  unfold Bluring.blurRun
  split
  · rfl
  · split
    · rfl
    · split
      · rfl
      · rfl

/-- C8: neither config object holds mutable cross-call state.  Every
stored field of `Thresholding` other than the transient `img` is unchanged
by `_thresholding` (first 11 conjuncts), every stored field of `Bluring`
other than `img` is unchanged by `_blur` (next 9 conjuncts), and repeating
either call on the post-call object with the same input image gives the
identical result (remaining conjuncts), so repeated calls on the same
config behave identically. -/
theorem c8_no_cross_call_state (cv : CvPrims) (t : Thresholding) (i : Image)
    (cvb : CvBPrims) (b : Bluring) (j : Image) :
    (Thresholding.run cv t).1.feature = t.feature ∧
    (Thresholding.run cv t).1.adaptive_th = t.adaptive_th ∧
    (Thresholding.run cv t).1.thresh_type = t.thresh_type ∧
    (Thresholding.run cv t).1.simple_th = t.simple_th ∧
    (Thresholding.run cv t).1.blockSize = t.blockSize ∧
    (Thresholding.run cv t).1.c = t.c ∧
    (Thresholding.run cv t).1.mask_th = t.mask_th ∧
    (Thresholding.run cv t).1.maxValue = t.maxValue ∧
    (Thresholding.run cv t).1.otsu = t.otsu ∧
    (Thresholding.run cv t).1.simple_th_value = t.simple_th_value ∧
    (Thresholding.run cv t).1.simple_th_maxValue = t.simple_th_maxValue ∧
    Thresholding.run cv { (Thresholding.run cv t).1 with img := i } =
      Thresholding.run cv { t with img := i } ∧
    (Bluring.blurRun cvb b).1.blur_method = b.blur_method ∧
    (Bluring.blurRun cvb b).1.gKsize = b.gKsize ∧
    (Bluring.blurRun cvb b).1.sigmaX = b.sigmaX ∧
    (Bluring.blurRun cvb b).1.sigmaY = b.sigmaY ∧
    (Bluring.blurRun cvb b).1.mKsize = b.mKsize ∧
    (Bluring.blurRun cvb b).1.d = b.d ∧
    (Bluring.blurRun cvb b).1.sigmaColor = b.sigmaColor ∧
    (Bluring.blurRun cvb b).1.sigmaSpace = b.sigmaSpace ∧
    (Bluring.blurRun cvb b).1.borderType = b.borderType ∧
    Bluring.blurRun cvb { (Bluring.blurRun cvb b).1 with img := j } =
      Bluring.blurRun cvb { b with img := j } := by
  refine ⟨rfl, rfl, rfl, rfl, rfl, rfl, rfl, rfl, rfl, rfl, rfl, rfl,
    ?_, ?_, ?_, ?_, ?_, ?_, ?_, ?_, ?_, ?_⟩
  all_goals rw [Bluring.blurRun_state cvb b]

/-- C9: the claim speaks of validly constructed configs whose simple
method was checked at construction; but no real construction succeeds —
the first conjunct shows the construction raising `AttributeError` at
line 68 (missing `EOTask` base), so in the program the fallback arm of
line 140 never executes at all, trivially.  The guarantee the claim
describes does hold of the code that would implement it: for every object
state accepted by the (unreachable) validation suite of lines 70-97 — which
forces the simple method into the five known strings — the dispatch never
takes the trailing `else` (second conjunct). -/
theorem c9_fallback_unreachable {feature img stv stmv a tt s bs c mt mv o t}
    (cv : CvPrims) (img2 : Image)
    (h : Thresholding.initChecks feature img stv stmv a tt s bs c mt mv o = .ok t) :
    Thresholding.init feature img stv stmv a tt s bs c mt mv o =
      .error .attributeError ∧
    (Thresholding.simpleStage cv t img2).1 ≠ SimpleBranch.fallback := by
  obtain ⟨ht, -, -, hs, -⟩ := thresholding_initChecks_ok h
  subst ht
  refine ⟨rfl, ?_⟩
  simp only [AVAILABLE_METHODS_SIMPLE_THRESHOLDING, List.mem_cons,
    List.not_mem_nil, or_false] at hs
  rcases hs with hs | hs | hs | hs | hs <;> subst hs <;>
    by_cases ho : o = (0 : Int) <;>
      simp [Thresholding.simpleStage, ho]

/-- C9 witness: the dispatch at a concrete object state accepted by the
validation suite does not take the fallback arm (and the same argument
list raises `AttributeError` in the real constructor). -/
theorem c9_witness :
    Thresholding.initChecks (FeatureInput.pair FeatureType.data "bands") imgT
        127 255 "ADAPTIVE_THRESH_MEAN_C" "THRESH_BINARY" "THRESH_BINARY"
        11 2 10 255 0 = .ok cfgT ∧
    (Thresholding.init (FeatureInput.pair FeatureType.data "bands") imgT
        127 255 "ADAPTIVE_THRESH_MEAN_C" "THRESH_BINARY" "THRESH_BINARY"
        11 2 10 255 0 = .error .attributeError ∧
     (Thresholding.simpleStage testPrims cfgT imgT).1 ≠ SimpleBranch.fallback) := by
  have h : Thresholding.initChecks (FeatureInput.pair FeatureType.data "bands")
      imgT 127 255 "ADAPTIVE_THRESH_MEAN_C" "THRESH_BINARY" "THRESH_BINARY"
      11 2 10 255 0 = .ok cfgT := rfl
  exact ⟨h, c9_fallback_unreachable testPrims imgT h⟩

/-- C10: for every validly constructed `Bluring` config with method
`none`, `_blur` is the identity: it returns the stored image and leaves
the object exactly as it was. -/
theorem c10_blur_none_identity {img sY bT gk sX mK d sC sS b}
    (cvb : CvBPrims)
    (h : Bluring.init img sY bT "none" gk sX mK d sC sS = .ok b) :
    Bluring.blurRun cvb b = (b, b.img) := by
  obtain ⟨hb, -⟩ := bluring_init_ok h
  subst hb
  simp [Bluring.blurRun]

/-- C10 witness: a concrete valid `none` config (with an integer `gKsize`,
since the pair form cannot be constructed). -/
theorem c10_witness :
    Bluring.init imgT 0 0 "none" (GK.int 5) 0 5 9 75 75 = .ok cfgB ∧
    Bluring.blurRun testBPrims cfgB = (cfgB, cfgB.img) := by
  have h : Bluring.init imgT 0 0 "none" (GK.int 5) 0 5 9 75 75 = .ok cfgB := rfl
  exact ⟨h, c10_blur_none_identity testBPrims h⟩
